import Mathlib

/-!
Verification of the Medical Assistant backend (`main.py`).

The repository is a single FastAPI application exposing `POST /ask`, which
forwards a question to a LangChain agent equipped with two tools:

* `fetch_pubmed_articles` — searches PubMed (esearch), then fetches summaries
  (esummary) and formats titles and publication dates;
* `fetch_drug_side_effects` — queries the openFDA drug-event API and extracts
  reaction descriptions.

We embed those functions shallowly.  JSON values are modelled by the `Json`
inductive; Python `dict.get`, `in`, indexing, `len`, truthiness and
`str.join` are modelled by explicit helpers that return `Except String _`
where the Python operation can raise (the `.error` payload stands for the
raised exception's text; the precise wording of *internal* exception messages
such as `AttributeError`/`TypeError` is not load-bearing and is not claimed —
only transport-exception text, which passes through verbatim, is).

The behaviour of the external HTTP layer (`requests.get`) is modelled as an
arbitrary function `Http` from URL and query parameters to either a transport
exception (`.error`) or an `HttpResponse` carrying a status code and the
result of calling `.json()` on the body.  Process environment variables are
an explicit `Env` record.  A Python `try: ... except Exception as e:` block
becomes an `Except String String` body plus a wrapper that turns `.error e`
into the corresponding `f"... {str(e)}"` string.
-/

namespace MedicalBackend

/-- A JSON value, as produced by `response.json()`. -/
inductive Json where
  | null : Json
  | b : Bool → Json
  | n : Int → Json
  | s : String → Json
  | arr : List Json → Json
  | obj : List (String × Json) → Json

/-- Python `d.get(key, default)`.  On a dict it is a lookup with a default;
on any non-dict value it raises `AttributeError`. -/
def Json.get : Json → String → Json → Except String Json
  | .obj fs, key, d => .ok ((List.lookup key fs).getD d)
  | _, _, _ => .error "AttributeError: object has no attribute get"

/-- Python truthiness of a JSON value (`if x:`). -/
def Json.truthy : Json → Bool
  | .null => false
  | .b v => v
  | .n i => i != 0
  | .s t => t != ""
  | .arr xs => !xs.isEmpty
  | .obj fs => !fs.isEmpty

/-- Python `key in d` for a dict; on non-dict values the code under
verification would not reach a meaningful branch, so we model them as a
raised `TypeError`. -/
def Json.hasKey : Json → String → Except String Bool
  | .obj fs, key => .ok (List.lookup key fs).isSome
  | _, _ => .error "TypeError: argument is not a mapping"

/-- Python `d[key]` on a dict: `KeyError` when absent, `TypeError` on
non-dict values. -/
def Json.index : Json → String → Except String Json
  | .obj fs, key =>
    match List.lookup key fs with
    | some v => .ok v
    | none => .error "KeyError"
  | _, _ => .error "TypeError: value is not subscriptable"

/-- Python `len(x)` for the JSON shapes that support it. -/
def Json.lenVal : Json → Except String Nat
  | .arr xs => .ok xs.length
  | .obj fs => .ok fs.length
  | .s t => .ok t.length
  | _ => .error "TypeError: object has no len"

/-- Python `x[0]` on a list: `IndexError` when empty. -/
def Json.first : Json → Except String Json
  | .arr (x :: _) => .ok x
  | .arr [] => .error "IndexError: list index out of range"
  | _ => .error "TypeError: value is not subscriptable"

/-- The list of elements of a JSON array; iterating any other value is
modelled as a raised `TypeError`. -/
def Json.elems : Json → Except String (List Json)
  | .arr xs => .ok xs
  | _ => .error "TypeError: value is not iterable"

/-- The string payload of a JSON string; `str.join` raises `TypeError` on
any non-string element. -/
def Json.asStr : Json → Except String String
  | .s t => .ok t
  | _ => .error "TypeError: sequence item is not a str instance"

mutual

/-- Python `repr` of a JSON value (used by `str` on lists and dicts). -/
def Json.pyRepr : Json → String
  | .null => "None"
  | .b true => "True"
  | .b false => "False"
  | .n i => toString i
  | .s t => "\x27" ++ t ++ "\x27"
  | .arr xs => "[" ++ String.intercalate ", " (Json.pyReprList xs) ++ "]"
  | .obj fs => "\x7b" ++ String.intercalate ", " (Json.pyReprFields fs) ++ "\x7d"

/-- `repr` of each element of a JSON array. -/
def Json.pyReprList : List Json → List String
  | [] => []
  | x :: xs => Json.pyRepr x :: Json.pyReprList xs

/-- `repr` of each entry of a JSON object. -/
def Json.pyReprFields : List (String × Json) → List String
  | [] => []
  | (k, v) :: fs => ("\x27" ++ k ++ "\x27: " ++ Json.pyRepr v) :: Json.pyReprFields fs

end

/-- Python `str(x)` as applied by an f-string: identity on strings,
`repr`-like otherwise. -/
def Json.pyStr : Json → String
  | .s t => t
  | j => Json.pyRepr j

/-- A value appearing in a `requests` params dict (`str`, `int`, or `None`). -/
inductive PyVal where
  | vs : String → PyVal
  | vn : Int → PyVal
  | vnone : PyVal
deriving DecidableEq

/-- Lift an optional string (e.g. `os.getenv(...)`) into a params value. -/
def PyVal.ofOpt : Option String → PyVal
  | some t => .vs t
  | none => .vnone

/-- The result of `requests.get`: either a transport exception or a response
with a status code and the outcome of calling `.json()` on the body. -/
structure HttpResponse where
  status_code : Nat
  json : Except String Json

/-- One possible behaviour of the outbound HTTP layer: a map from URL and
query parameters to a transport exception or a response.  `requests.get(url)`
with no params is modelled as a call with `[]`. -/
def Http : Type := String → List (String × PyVal) → Except String HttpResponse

/-- The process environment variables read at startup. -/
structure Env where
  NCBI_API_KEY : Option String
  FDA_API_KEY : Option String
  GOOGLE_API_KEY : Option String

/-- `PUBMED_API_KEY = os.getenv("NCBI_API_KEY")`. -/
def PUBMED_API_KEY (env : Env) : Option String := env.NCBI_API_KEY

/-- `FDA_API_KEY = os.getenv("FDA_API_KEY")` (read but never used by any
outbound call). -/
def FDA_API_KEY (env : Env) : Option String := env.FDA_API_KEY

def PUBMED_API_URL : String := "https://eutils.ncbi.nlm.nih.gov/entrez/eutils/esearch.fcgi"

def PUBMED_SUMMARY_API_URL : String := "https://eutils.ncbi.nlm.nih.gov/entrez/eutils/esummary.fcgi"

/-- The `params` dict of the esearch call in `fetch_pubmed_articles`. -/
def searchParams (env : Env) (search_term : String) : List (String × PyVal) :=
  [("db", .vs "pubmed"),
   ("term", .vs search_term),
   ("retmax", .vn 5),
   ("retmode", .vs "json"),
   ("api_key", PyVal.ofOpt (PUBMED_API_KEY env))]

/-- The `summary_params` dict of the esummary call in `fetch_pubmed_articles`;
`ids` is `','.join(id_list)`. -/
def summaryParams (env : Env) (ids : String) : List (String × PyVal) :=
  [("db", .vs "pubmed"),
   ("id", .vs ids),
   ("retmode", .vs "json"),
   ("api_key", PyVal.ofOpt (PUBMED_API_KEY env))]

/-- The Python `for` loop building a list, aborting on the first raised
exception. -/
def mapExcept (f : α → Except String β) : List α → Except String (List β)
  | [] => .ok []
  | x :: xs =>
    match f x with
    | .error e => .error e
    | .ok y =>
      match mapExcept f xs with
      | .error e => .error e
      | .ok ys => .ok (y :: ys)

/-- One iteration of the summary-formatting loop of `fetch_pubmed_articles`:
`article = articles.get(article_id, {})`, `title = article.get("title", "No
title available")`, `pub_year = article.get("pubdate", "No publication date
available")`, `f"Title: {title}, Published: {pub_year}"`. -/
def articleEntry (articles : Json) (article_id : String) : Except String String :=
  match articles.get article_id (Json.obj []) with
  | .error e => .error e
  | .ok article =>
    match article.get "title" (Json.s "No title available") with
    | .error e => .error e
    | .ok title =>
      match article.get "pubdate" (Json.s "No publication date available") with
      | .error e => .error e
      | .ok pub_year =>
        .ok ("Title: " ++ title.pyStr ++ ", Published: " ++ pub_year.pyStr)

/-- The esummary half of `fetch_pubmed_articles` (lines 52–70 of `main.py`),
entered with the non-empty identifier list. -/
def summarize (http : Http) (env : Env) (id_list : List String) : Except String String :=
  match http PUBMED_SUMMARY_API_URL (summaryParams env (String.intercalate "," id_list)) with
  | .error e => .error e
  | .ok summary_response =>
    if summary_response.status_code = 200 then
      match summary_response.json with
      | .error e => .error e
      | .ok summary_data =>
        match summary_data.get "result" (Json.obj []) with
        | .error e => .error e
        | .ok articles =>
          match mapExcept (articleEntry articles) id_list with
          | .error e => .error e
          | .ok detailed_responses => .ok (String.intercalate " | " detailed_responses)
    else
      .ok ("Error: Unable to fetch article summaries. Status code " ++
        toString summary_response.status_code ++ ".")

/-- The body of the `try:` block of `fetch_pubmed_articles` (lines 42–72).
`.error e` stands for an exception raised inside the block.  The
`','.join(id_list)` type check (each identifier must be a `str`) is performed
where Python performs it: before the esummary request is issued. -/
def fetchPubmedTry (http : Http) (env : Env) (search_term : String) : Except String String :=
  match http PUBMED_API_URL (searchParams env search_term) with
  | .error e => .error e
  | .ok response =>
    if response.status_code = 200 then
      match response.json with
      | .error e => .error e
      | .ok data =>
        match data.get "esearchresult" (Json.obj []) with
        | .error e => .error e
        | .ok esearchresult =>
          match esearchresult.get "idlist" (Json.arr []) with
          | .error e => .error e
          | .ok id_list_val =>
            if id_list_val.truthy then
              match id_list_val.elems with
              | .error e => .error e
              | .ok raw_ids =>
                match mapExcept Json.asStr raw_ids with
                | .error e => .error e
                | .ok id_list => summarize http env id_list
            else
              .ok "No articles found for this search term."
    else
      .ok ("Error: Unable to fetch PubMed articles. Status code " ++
        toString response.status_code ++ ".")

/-- `fetch_pubmed_articles` (lines 30–74 of `main.py`): the `try:` body with
its catch-all `except Exception as e: return f"Error fetching PubMed
articles: {str(e)}"`. -/
def fetch_pubmed_articles (http : Http) (env : Env) (search_term : String) : String :=
  match fetchPubmedTry http env search_term with
  | .ok result => result
  | .error e => "Error fetching PubMed articles: " ++ e

/-- `FDA_API_URL` as built by the f-string on line 81 of `main.py`. -/
def FDA_API_URL (drug_name : String) : String :=
  "https://api.fda.gov/drug/event.json?search=patient.drug.medicinalproduct:" ++
    drug_name ++ "&limit=1"

/-- One element of the reaction list comprehension on line 90:
`reaction.get('reactionmeddrapt', 'No description')`. -/
def reactionDescription (reaction : Json) : Except String Json :=
  reaction.get "reactionmeddrapt" (Json.s "No description")

/-- The body of the `try:` block of `fetch_drug_side_effects` (lines 82–97).
The short-circuit `'results' in data and len(data['results']) > 0` is
modelled exactly; `", ".join(...)` checks that every collected description is
a string, after the comprehension has run. -/
def fetchDrugTry (http : Http) (drug_name : String) : Except String String :=
  match http (FDA_API_URL drug_name) [] with
  | .error e => .error e
  | .ok response =>
    if response.status_code = 200 then
      match response.json with
      | .error e => .error e
      | .ok data =>
        match data.hasKey "results" with
        | .error e => .error e
        | .ok hasResults =>
          match (if hasResults then
                  match data.index "results" with
                  | .error e => .error e
                  | .ok results =>
                    match results.lenVal with
                    | .error e => .error e
                    | .ok l => .ok (decide (l > 0))
                 else .ok false : Except String Bool) with
          | .error e => .error e
          | .ok nonEmpty =>
            if nonEmpty then
              match data.index "results" with
              | .error e => .error e
              | .ok results =>
                match results.first with
                | .error e => .error e
                | .ok firstResult =>
                  match firstResult.get "patient" (Json.obj []) with
                  | .error e => .error e
                  | .ok patient =>
                    match patient.get "reaction" (Json.arr []) with
                    | .error e => .error e
                    | .ok side_effects =>
                      if side_effects.truthy then
                        match side_effects.elems with
                        | .error e => .error e
                        | .ok reactions =>
                          match mapExcept reactionDescription reactions with
                          | .error e => .error e
                          | .ok side_effect_descriptions =>
                            match mapExcept Json.asStr side_effect_descriptions with
                            | .error e => .error e
                            | .ok descs => .ok (String.intercalate ", " descs)
                      else
                        .ok "No side effects listed for this drug."
            else
              .ok "No information available for this drug."
    else
      .ok ("Error: " ++ toString response.status_code ++
        " - Unable to fetch data from FDA API")

/-- `fetch_drug_side_effects` (lines 79–99 of `main.py`).  The function has
access to the process environment (like every top-level Python function) but
its body references none of it — in particular not `FDA_API_KEY`. -/
def fetch_drug_side_effects (env : Env) (http : Http) (drug_name : String) : String :=
  match fetchDrugTry http drug_name with
  | .ok result => result
  | .error e => "Error fetching drug information: " ++ e

/-- The request body of `POST /ask`. -/
structure QueryRequest where
  question : String

/-- The `config` passed to `agent_executor.invoke` on line 178:
`{"configurable": {"session_id": "test123"}}` — a fixed, hardcoded session
identifier. -/
def askConfig : List (String × List (String × String)) :=
  [("configurable", [("session_id", "test123")])]

/-- The JSON body of an HTTP reply from the `/ask` handler: either
`{"response": r}` (plain return) or `{"detail": d}` (an `HTTPException`). -/
inductive AskBody (R : Type) where
  | response : R → AskBody R
  | detail : String → AskBody R
deriving DecidableEq

/-- An HTTP reply from the `/ask` handler: status code and JSON body. -/
structure AskReply (R : Type) where
  status : Nat
  body : AskBody R

/-- The `/ask` handler (lines 170–182 of `main.py`).  `invoke` is the
behaviour of `agent_executor.invoke`, taking the `input` value and the
`config`; `.error e` stands for a raised exception with text `str(e)`.  A
plain return is a 200 reply; the handler's `except` clause raises
`HTTPException(status_code=500, detail=f"Error processing request: {str(e)}")`. -/
def ask_question (R : Type)
    (invoke : String → List (String × List (String × String)) → Except String R)
    (query : QueryRequest) : AskReply R :=
  match invoke query.question askConfig with
  | .ok response => ⟨200, AskBody.response response⟩
  | .error e => ⟨500, AskBody.detail ("Error processing request: " ++ e)⟩

/-- `hay` contains `needle` as a substring (witnessed by a decomposition). -/
def containsText (hay needle : String) : Prop :=
  ∃ a b, hay = a ++ needle ++ b

/-- Executable substring check on character lists (used to state that a URL
does not mention a given parameter name). -/
def hasSub (needle hay : List Char) : Bool :=
  (List.range (hay.length + 1)).any fun i => needle.isPrefixOf (hay.drop i)

end MedicalBackend

namespace MedicalBackend

/-! ### Helper lemmas shared by the claim theorems -/

theorem fetch_pubmed_of_ok {http : Http} {env : Env} {t r : String}
    (h : fetchPubmedTry http env t = .ok r) :
    fetch_pubmed_articles http env t = r := by
  simp [fetch_pubmed_articles, h]

theorem fetch_pubmed_of_error {http : Http} {env : Env} {t e : String}
    (h : fetchPubmedTry http env t = .error e) :
    fetch_pubmed_articles http env t = "Error fetching PubMed articles: " ++ e := by
  simp [fetch_pubmed_articles, h]

theorem fetch_drug_of_ok {http : Http} {env : Env} {d r : String}
    (h : fetchDrugTry http d = .ok r) :
    fetch_drug_side_effects env http d = r := by
  simp [fetch_drug_side_effects, h]

theorem fetch_drug_of_error {http : Http} {env : Env} {d e : String}
    (h : fetchDrugTry http d = .error e) :
    fetch_drug_side_effects env http d = "Error fetching drug information: " ++ e := by
  simp [fetch_drug_side_effects, h]

theorem mapExcept_ok_of_forall {f : α → Except String β} {g : α → β} :
    ∀ {xs : List α}, (∀ x ∈ xs, f x = .ok (g x)) →
      mapExcept f xs = .ok (xs.map g)
  | [], _ => rfl
  | x :: xs, h => by
    have hx : f x = .ok (g x) := h x (List.mem_cons_self x xs)
    have hxs : mapExcept f xs = .ok (xs.map g) :=
      mapExcept_ok_of_forall fun y hy => h y (List.mem_cons_of_mem x hy)
    simp [mapExcept, hx, hxs]

theorem mapExcept_asStr_of_map_s (ids : List String) :
    mapExcept Json.asStr (ids.map Json.s) = .ok ids := by
  induction ids with
  | nil => rfl
  | cons a l ih => simp [List.map, mapExcept, Json.asStr, ih]

/-- Reduction of `fetchPubmedTry` to `summarize` on the search-success path:
esearch answered 200 with a JSON object whose `esearchresult.idlist` is a
non-empty array of strings. -/
theorem fetchPubmedTry_search_ok {http : Http} {env : Env} {term : String}
    {resp : HttpResponse} {fields efields : List (String × Json)} {ids : List String}
    (h1 : http PUBMED_API_URL (searchParams env term) = .ok resp)
    (h2 : resp.status_code = 200)
    (h3 : resp.json = .ok (Json.obj fields))
    (h4 : List.lookup "esearchresult" fields = some (Json.obj efields))
    (h5 : List.lookup "idlist" efields = some (Json.arr (ids.map Json.s)))
    (h6 : ids ≠ []) :
    fetchPubmedTry http env term = summarize http env ids := by
  have htruthy : (Json.arr (ids.map Json.s)).truthy = true := by
    cases ids with
    | nil => exact absurd rfl h6
    | cons a l => simp [Json.truthy]
  simp only [fetchPubmedTry, h1, h2, h3, Json.get, h4, Option.getD_some, h5,
    if_pos rfl, htruthy, if_pos, Json.elems, mapExcept_asStr_of_map_s]

/-- Reduction of `summarize` on the esummary-success path. -/
theorem summarize_ok {http : Http} {env : Env} {ids : List String}
    {resp : HttpResponse} {sfields : List (String × Json)} {articles : Json}
    {entries : List String}
    (h1 : http PUBMED_SUMMARY_API_URL (summaryParams env (String.intercalate "," ids)) = .ok resp)
    (h2 : resp.status_code = 200)
    (h3 : resp.json = .ok (Json.obj sfields))
    (h4 : List.lookup "result" sfields = some articles)
    (h5 : mapExcept (articleEntry articles) ids = .ok entries) :
    summarize http env ids = .ok (String.intercalate " | " entries) := by
  simp only [summarize, h1, h2, h3, Json.get, h4, Option.getD_some, h5, if_pos rfl,
    if_true]

/-- The record produced for one identifier whose summary entry is present
with the given optional `title` and `pubdate` string fields. -/
theorem articleEntry_of_fields {resFields afs : List (String × Json)}
    {id : String} {t? p? : Option String}
    (h1 : List.lookup id resFields = some (Json.obj afs))
    (h2 : List.lookup "title" afs = Option.map Json.s t?)
    (h3 : List.lookup "pubdate" afs = Option.map Json.s p?) :
    articleEntry (Json.obj resFields) id =
      .ok ("Title: " ++ t?.getD "No title available" ++ ", Published: " ++
        p?.getD "No publication date available") := by
  cases t? <;> cases p? <;>
    simp [articleEntry, Json.get, h1, h2, h3, Json.pyStr]

/-- An identifier absent from the summary result map degrades to both
placeholders. -/
theorem articleEntry_absent {resFields : List (String × Json)} {id : String}
    (h : List.lookup id resFields = none) :
    articleEntry (Json.obj resFields) id =
      .ok "Title: No title available, Published: No publication date available" := by
  simp [articleEntry, Json.get, h, Json.pyStr, Json.pyRepr]

/-- An identifier whose summary entry is an arbitrary object still yields a
`Title: ..., Published: ...` record. -/
theorem articleEntry_obj {resFields afs : List (String × Json)} {id : String}
    (h : List.lookup id resFields = some (Json.obj afs)) :
    articleEntry (Json.obj resFields) id =
      .ok ("Title: " ++ ((List.lookup "title" afs).getD (Json.s "No title available")).pyStr ++
        ", Published: " ++
        ((List.lookup "pubdate" afs).getD (Json.s "No publication date available")).pyStr) := by
  simp [articleEntry, Json.get, h]

end MedicalBackend

namespace MedicalBackend

/-! ### Concrete instances used by the witnesses -/

/-- A concrete environment. -/
def env0 : Env := ⟨some "ncbi-key", some "fda-key", some "google-key"⟩

/-- An HTTP layer that always raises a transport exception. -/
def httpDown : Http := fun _ _ => .error "connection refused"

/-- An HTTP layer that always answers 404 (with an unparseable body). -/
def http404 : Http := fun _ _ => .ok ⟨404, .error "invalid json"⟩

/-! ### Claim theorems -/

/-- C1: For every `POST /ask` request with body `{question: q}`: if the
orchestrator invocation returns a result `R`, the endpoint returns HTTP 200
with body `{"response": R}`; if the orchestrator invocation raises any
exception `e`, the endpoint returns HTTP 500 whose detail string contains the
text of `e`. -/
theorem ask_question_status_contract (R : Type)
    (invoke : String → List (String × List (String × String)) → Except String R)
    (query : QueryRequest) :
    (∀ r, invoke query.question askConfig = .ok r →
      ask_question R invoke query = ⟨200, AskBody.response r⟩) ∧
    (∀ e, invoke query.question askConfig = .error e →
      (ask_question R invoke query).status = 500 ∧
      ∃ a, (ask_question R invoke query).body = AskBody.detail (a ++ e)) := by
  constructor
  · intro r h
    simp [ask_question, h]
  · intro e h
    exact ⟨by simp [ask_question, h],
      "Error processing request: ", by simp [ask_question, h]⟩

/-- Witness for C1: a stub orchestrator returning `7` yields `200
{"response": 7}`; one raising "model unavailable" yields `500` with that text
in the detail. -/
theorem ask_question_status_contract_witness :
    ask_question Nat (fun _ _ => Except.ok 7) ⟨"what causes fever"⟩ =
      ⟨200, AskBody.response 7⟩ ∧
    (ask_question Nat (fun _ _ => Except.error "model unavailable") ⟨"q"⟩).status = 500 ∧
    ∃ a, (ask_question Nat (fun _ _ => Except.error "model unavailable") ⟨"q"⟩).body =
      AskBody.detail (a ++ "model unavailable") :=
  ⟨(ask_question_status_contract Nat (fun _ _ => Except.ok 7)
      ⟨"what causes fever"⟩).1 7 rfl,
   (ask_question_status_contract Nat (fun _ _ => Except.error "model unavailable")
      ⟨"q"⟩).2 "model unavailable" rfl⟩

/-- C2: For every input and every behaviour of the external HTTP layer
(including transport exceptions at any of the three outbound calls), both
tool clients return a string and never propagate an exception: every
exception raised inside the `try:` block — in particular a transport
exception, whose text passes through verbatim — is converted into the
descriptive catch-all string. -/
theorem tool_clients_swallow_exceptions (env : Env) (term drug e : String) (http : Http) :
    (http PUBMED_API_URL (searchParams env term) = .error e →
      fetch_pubmed_articles http env term = "Error fetching PubMed articles: " ++ e) ∧
    (∀ resp fields efields ids,
      http PUBMED_API_URL (searchParams env term) = .ok resp →
      resp.status_code = 200 →
      resp.json = .ok (Json.obj fields) →
      List.lookup "esearchresult" fields = some (Json.obj efields) →
      List.lookup "idlist" efields = some (Json.arr (ids.map Json.s)) →
      ids ≠ [] →
      http PUBMED_SUMMARY_API_URL (summaryParams env (String.intercalate "," ids)) =
        .error e →
      fetch_pubmed_articles http env term = "Error fetching PubMed articles: " ++ e) ∧
    (http (FDA_API_URL drug) [] = .error e →
      fetch_drug_side_effects env http drug = "Error fetching drug information: " ++ e) ∧
    (∀ e2, fetchPubmedTry http env term = .error e2 →
      fetch_pubmed_articles http env term = "Error fetching PubMed articles: " ++ e2) ∧
    (∀ e2, fetchDrugTry http drug = .error e2 →
      fetch_drug_side_effects env http drug = "Error fetching drug information: " ++ e2) := by
  refine ⟨?_, ?_, ?_, ?_, ?_⟩
  · intro h
    exact fetch_pubmed_of_error (by simp [fetchPubmedTry, h])
  · intro resp fields efields ids h1 h2 h3 h4 h5 h6 herr
    refine fetch_pubmed_of_error ?_
    rw [fetchPubmedTry_search_ok h1 h2 h3 h4 h5 h6]
    simp [summarize, herr]
  · intro h
    exact fetch_drug_of_error (by simp [fetchDrugTry, h])
  · intro e2 h
    exact fetch_pubmed_of_error h
  · intro e2 h
    exact fetch_drug_of_error h

/-- Witness for C2: a connection-refused HTTP layer makes both clients return
the transport exception's text inside the catch-all string. -/
theorem tool_clients_swallow_exceptions_witness :
    fetch_pubmed_articles httpDown env0 "diabetes symptoms" =
      "Error fetching PubMed articles: connection refused" ∧
    fetch_drug_side_effects env0 httpDown "aspirin" =
      "Error fetching drug information: connection refused" :=
  ⟨(tool_clients_swallow_exceptions env0 "diabetes symptoms" "aspirin"
      "connection refused" httpDown).1 rfl,
   (tool_clients_swallow_exceptions env0 "diabetes symptoms" "aspirin"
      "connection refused" httpDown).2.2.1 rfl⟩

/-- C3: For every non-2xx HTTP status code `s` returned by either
literature-API step (search or summary), `fetch_pubmed_articles` returns a
string containing the numeric value of `s`; likewise for every non-success
status from the adverse-event API in `fetch_drug_side_effects`.  The failure
is returned as data, not raised. -/
theorem error_strings_carry_status_code (env : Env) (term drug : String) (http : Http)
    (s : Nat) (hs : ¬ (200 ≤ s ∧ s < 300)) :
    (∀ resp, http PUBMED_API_URL (searchParams env term) = .ok resp →
      resp.status_code = s →
      containsText (fetch_pubmed_articles http env term) (toString s)) ∧
    (∀ resp fields efields ids resp2,
      http PUBMED_API_URL (searchParams env term) = .ok resp →
      resp.status_code = 200 →
      resp.json = .ok (Json.obj fields) →
      List.lookup "esearchresult" fields = some (Json.obj efields) →
      List.lookup "idlist" efields = some (Json.arr (ids.map Json.s)) →
      ids ≠ [] →
      http PUBMED_SUMMARY_API_URL (summaryParams env (String.intercalate "," ids)) =
        .ok resp2 →
      resp2.status_code = s →
      containsText (fetch_pubmed_articles http env term) (toString s)) ∧
    (∀ resp, http (FDA_API_URL drug) [] = .ok resp →
      resp.status_code = s →
      containsText (fetch_drug_side_effects env http drug) (toString s)) := by
  have hne : s ≠ 200 := by omega
  refine ⟨?_, ?_, ?_⟩
  · intro resp hresp hsc
    have htry : fetchPubmedTry http env term =
        .ok ("Error: Unable to fetch PubMed articles. Status code " ++ toString s ++ ".") := by
      simp only [fetchPubmedTry, hresp, hsc]
      rw [if_neg hne]
    exact ⟨"Error: Unable to fetch PubMed articles. Status code ", ".",
      by rw [fetch_pubmed_of_ok htry]⟩
  · intro resp fields efields ids resp2 h1 h2 h3 h4 h5 h6 h7 h8
    have htry : fetchPubmedTry http env term =
        .ok ("Error: Unable to fetch article summaries. Status code " ++ toString s ++ ".") := by
      rw [fetchPubmedTry_search_ok h1 h2 h3 h4 h5 h6]
      simp only [summarize, h7, h8]
      rw [if_neg hne]
    exact ⟨"Error: Unable to fetch article summaries. Status code ", ".",
      by rw [fetch_pubmed_of_ok htry]⟩
  · intro resp hresp hsc
    have htry : fetchDrugTry http drug =
        .ok ("Error: " ++ toString s ++ " - Unable to fetch data from FDA API") := by
      simp only [fetchDrugTry, hresp, hsc]
      rw [if_neg hne]
    exact ⟨"Error: ", " - Unable to fetch data from FDA API",
      by rw [fetch_drug_of_ok htry]⟩

/-- Witness for C3: a 404 from the search step and from the adverse-event
API each surface "404" inside the returned string. -/
theorem error_strings_carry_status_code_witness :
    containsText (fetch_pubmed_articles http404 env0 "diabetes symptoms") (toString 404) ∧
    containsText (fetch_drug_side_effects env0 http404 "aspirin") (toString 404) :=
  ⟨(error_strings_carry_status_code env0 "diabetes symptoms" "aspirin" http404 404
      (by decide)).1 ⟨404, .error "invalid json"⟩ rfl rfl,
   (error_strings_carry_status_code env0 "diabetes symptoms" "aspirin" http404 404
      (by decide)).2.2 ⟨404, .error "invalid json"⟩ rfl rfl⟩

end MedicalBackend

namespace MedicalBackend

/-- The `esearch` reply body of the spec's scenario: identifiers `["1","2"]`. -/
def scenarioSearchFields : List (String × Json) :=
  [("esearchresult", Json.obj [("idlist", Json.arr [Json.s "1", Json.s "2"])])]

/-- The `esummary` result map of the spec's scenario: titles "A","B", dates
"2020","2021". -/
def scenarioResultFields : List (String × Json) :=
  [("1", Json.obj [("title", Json.s "A"), ("pubdate", Json.s "2020")]),
   ("2", Json.obj [("title", Json.s "B"), ("pubdate", Json.s "2021")])]

/-- An HTTP layer realising the spec's two-identifier scenario. -/
def httpScenario : Http := fun url _ =>
  if url = PUBMED_API_URL then
    .ok ⟨200, .ok (Json.obj scenarioSearchFields)⟩
  else if url = PUBMED_SUMMARY_API_URL then
    .ok ⟨200, .ok (Json.obj [("result", Json.obj scenarioResultFields)])⟩
  else
    .error "unexpected URL"

/-- Scenario title map: "1" ↦ "A", "2" ↦ "B". -/
def scenarioTitle (id : String) : Option String :=
  if id = "1" then some "A" else if id = "2" then some "B" else none

/-- Scenario date map: "1" ↦ "2020", "2" ↦ "2021". -/
def scenarioDate (id : String) : Option String :=
  if id = "1" then some "2020" else if id = "2" then some "2021" else none

/-- C4: When both literature-API calls succeed, `fetch_pubmed_articles`
extracts per identifier a title and a publication date, substitutes the fixed
placeholders "No title available" / "No publication date available" for
missing fields, formats each record as `"Title: {t}, Published: {p}"`, and
joins records with `" | "`.  `t?`/`p?` give the optional title/date fields of
each identifier's summary entry. -/
theorem fetch_pubmed_formats_records (http : Http) (env : Env) (term : String)
    (resp : HttpResponse) (fields efields : List (String × Json)) (ids : List String)
    (resp2 : HttpResponse) (sfields resFields : List (String × Json))
    (t? p? : String → Option String)
    (h1 : http PUBMED_API_URL (searchParams env term) = .ok resp)
    (h2 : resp.status_code = 200)
    (h3 : resp.json = .ok (Json.obj fields))
    (h4 : List.lookup "esearchresult" fields = some (Json.obj efields))
    (h5 : List.lookup "idlist" efields = some (Json.arr (ids.map Json.s)))
    (h6 : ids ≠ [])
    (h7 : http PUBMED_SUMMARY_API_URL (summaryParams env (String.intercalate "," ids)) =
      .ok resp2)
    (h8 : resp2.status_code = 200)
    (h9 : resp2.json = .ok (Json.obj sfields))
    (h10 : List.lookup "result" sfields = some (Json.obj resFields))
    (h11 : ∀ id ∈ ids, ∃ afs, List.lookup id resFields = some (Json.obj afs) ∧
      List.lookup "title" afs = Option.map Json.s (t? id) ∧
      List.lookup "pubdate" afs = Option.map Json.s (p? id)) :
    fetch_pubmed_articles http env term =
      String.intercalate " | " (ids.map fun id =>
        "Title: " ++ (t? id).getD "No title available" ++ ", Published: " ++
          (p? id).getD "No publication date available") := by
  have hmap : mapExcept (articleEntry (Json.obj resFields)) ids =
      .ok (ids.map fun id =>
        "Title: " ++ (t? id).getD "No title available" ++ ", Published: " ++
          (p? id).getD "No publication date available") :=
    mapExcept_ok_of_forall fun id hid => by
      obtain ⟨afs, ha, ht, hp⟩ := h11 id hid
      exact articleEntry_of_fields ha ht hp
  exact fetch_pubmed_of_ok
    ((fetchPubmedTry_search_ok h1 h2 h3 h4 h5 h6).trans
      (summarize_ok h7 h8 h9 h10 hmap))

/-- Witness for C4: the spec's scenario — identifiers `["1","2"]` with titles
"A","B" and dates "2020","2021" yield exactly
`"Title: A, Published: 2020 | Title: B, Published: 2021"`. -/
theorem fetch_pubmed_formats_records_witness :
    fetch_pubmed_articles httpScenario env0 "diabetes symptoms" =
      "Title: A, Published: 2020 | Title: B, Published: 2021" := by
  have h := fetch_pubmed_formats_records httpScenario env0 "diabetes symptoms"
    ⟨200, .ok (Json.obj scenarioSearchFields)⟩ scenarioSearchFields
    [("idlist", Json.arr [Json.s "1", Json.s "2"])] ["1", "2"]
    ⟨200, .ok (Json.obj [("result", Json.obj scenarioResultFields)])⟩
    [("result", Json.obj scenarioResultFields)] scenarioResultFields
    scenarioTitle scenarioDate
    rfl rfl rfl rfl rfl (by decide) rfl rfl rfl rfl
    (by
      intro id hid
      rcases List.mem_cons.mp hid with rfl | hid2
      · exact ⟨[("title", Json.s "A"), ("pubdate", Json.s "2020")], rfl, rfl, rfl⟩
      rcases List.mem_cons.mp hid2 with rfl | hid3
      · exact ⟨[("title", Json.s "B"), ("pubdate", Json.s "2021")], rfl, rfl, rfl⟩
      exact absurd hid3 (List.not_mem_nil id))
  rw [h]
  decide

/-- C5: For every search response in which the literature search succeeds but
the identifier list is empty (or absent, which the code defaults to empty),
`fetch_pubmed_articles` returns exactly the fixed "no articles found" string;
since the behaviour of `http` on the esummary endpoint is unconstrained, the
result does not involve any summary-API call. -/
theorem fetch_pubmed_empty_idlist (http : Http) (env : Env) (term : String)
    (resp : HttpResponse) (fields efields : List (String × Json))
    (h1 : http PUBMED_API_URL (searchParams env term) = .ok resp)
    (h2 : resp.status_code = 200)
    (h3 : resp.json = .ok (Json.obj fields))
    (h4 : List.lookup "esearchresult" fields = some (Json.obj efields))
    (h5 : List.lookup "idlist" efields = some (Json.arr []) ∨
      List.lookup "idlist" efields = none) :
    fetch_pubmed_articles http env term = "No articles found for this search term." := by
  refine fetch_pubmed_of_ok ?_
  rcases h5 with h5 | h5 <;>
    simp [fetchPubmedTry, h1, h2, h3, Json.get, h4, h5, Json.truthy]

/-- An HTTP layer whose search reply carries an empty identifier list and
which raises on every other URL (so a summary call would be visible). -/
def httpEmptyIds : Http := fun url _ =>
  if url = PUBMED_API_URL then
    .ok ⟨200, .ok (Json.obj [("esearchresult", Json.obj [("idlist", Json.arr [])])])⟩
  else
    .error "unexpected URL"

/-- Witness for C5. -/
theorem fetch_pubmed_empty_idlist_witness :
    fetch_pubmed_articles httpEmptyIds env0 "unknown term" =
      "No articles found for this search term." :=
  fetch_pubmed_empty_idlist httpEmptyIds env0 "unknown term"
    ⟨200, .ok (Json.obj [("esearchresult", Json.obj [("idlist", Json.arr [])])])⟩
    [("esearchresult", Json.obj [("idlist", Json.arr [])])]
    [("idlist", Json.arr [])]
    rfl rfl rfl rfl (Or.inl rfl)

end MedicalBackend

namespace MedicalBackend

/-- The record `fetch_pubmed_articles` produces for one identifier on the
success path, as a total function of the summary result map: a present object
entry yields its (possibly placeholder) title and date, an absent entry
yields both placeholders. -/
def entryOf (resFields : List (String × Json)) (id : String) : String :=
  match List.lookup id resFields with
  | some (Json.obj afs) =>
    "Title: " ++ ((List.lookup "title" afs).getD (Json.s "No title available")).pyStr ++
      ", Published: " ++
      ((List.lookup "pubdate" afs).getD (Json.s "No publication date available")).pyStr
  | _ => "Title: No title available, Published: No publication date available"

/-- C10: In the success path (both literature-API calls return 200 and the
identifier list is non-empty), the output contains exactly one
`"Title: ..., Published: ..."` entry per identifier, in the same order as the
identifier list; an identifier absent from the summary result map still
contributes an entry with both placeholder values rather than being
dropped. -/
theorem fetch_pubmed_one_entry_per_id (http : Http) (env : Env) (term : String)
    (resp : HttpResponse) (fields efields : List (String × Json)) (ids : List String)
    (resp2 : HttpResponse) (sfields resFields : List (String × Json))
    (h1 : http PUBMED_API_URL (searchParams env term) = .ok resp)
    (h2 : resp.status_code = 200)
    (h3 : resp.json = .ok (Json.obj fields))
    (h4 : List.lookup "esearchresult" fields = some (Json.obj efields))
    (h5 : List.lookup "idlist" efields = some (Json.arr (ids.map Json.s)))
    (h6 : ids ≠ [])
    (h7 : http PUBMED_SUMMARY_API_URL (summaryParams env (String.intercalate "," ids)) =
      .ok resp2)
    (h8 : resp2.status_code = 200)
    (h9 : resp2.json = .ok (Json.obj sfields))
    (h10 : List.lookup "result" sfields = some (Json.obj resFields))
    (h11 : ∀ id ∈ ids, List.lookup id resFields = none ∨
      ∃ afs, List.lookup id resFields = some (Json.obj afs)) :
    ∃ entries : List String,
      fetch_pubmed_articles http env term = String.intercalate " | " entries ∧
      entries.length = ids.length ∧
      (∀ i, (hi : i < ids.length) → List.lookup ids[i] resFields = none →
        entries[i]? = some "Title: No title available, Published: No publication date available") ∧
      (∀ r ∈ entries, ∃ t p, r = "Title: " ++ t ++ ", Published: " ++ p) := by
  refine ⟨ids.map (entryOf resFields), ?_, by simp, ?_, ?_⟩
  · have hmap : mapExcept (articleEntry (Json.obj resFields)) ids =
        .ok (ids.map (entryOf resFields)) :=
      mapExcept_ok_of_forall fun id hid => by
        rcases h11 id hid with h | ⟨afs, h⟩
        · rw [articleEntry_absent h]
          simp [entryOf, h]
        · rw [articleEntry_obj h]
          simp [entryOf, h]
    exact fetch_pubmed_of_ok
      ((fetchPubmedTry_search_ok h1 h2 h3 h4 h5 h6).trans
        (summarize_ok h7 h8 h9 h10 hmap))
  · intro i hi hnone
    have hg : (ids.map (entryOf resFields))[i]? = some (entryOf resFields ids[i]) := by
      simp [List.getElem?_map, List.getElem?_eq_getElem hi]
    rw [hg]
    simp [entryOf, hnone]
  · intro r hr
    obtain ⟨id, hid, rfl⟩ := List.mem_map.mp hr
    rcases h11 id hid with h | ⟨afs, h⟩
    · exact ⟨"No title available", "No publication date available",
        by simp [entryOf, h]⟩
    · exact ⟨((List.lookup "title" afs).getD (Json.s "No title available")).pyStr,
        ((List.lookup "pubdate" afs).getD (Json.s "No publication date available")).pyStr,
        by simp [entryOf, h]⟩

/-- An HTTP layer whose summary result map lacks identifier "2". -/
def httpMissingId : Http := fun url _ =>
  if url = PUBMED_API_URL then
    .ok ⟨200, .ok (Json.obj scenarioSearchFields)⟩
  else if url = PUBMED_SUMMARY_API_URL then
    .ok ⟨200, .ok (Json.obj [("result", Json.obj
      [("1", Json.obj [("title", Json.s "A"), ("pubdate", Json.s "2020")])])])⟩
  else
    .error "unexpected URL"

/-- Witness for C10: with identifiers `["1","2"]` and a summary map only
containing "1", there are two ordered entries and the second is the
double-placeholder record. -/
theorem fetch_pubmed_one_entry_per_id_witness :
    ∃ entries : List String,
      fetch_pubmed_articles httpMissingId env0 "diabetes symptoms" =
        String.intercalate " | " entries ∧
      entries.length = (["1", "2"] : List String).length ∧
      (∀ i, (hi : i < (["1", "2"] : List String).length) →
        List.lookup (["1", "2"] : List String)[i]
          [("1", Json.obj [("title", Json.s "A"), ("pubdate", Json.s "2020")])] = none →
        entries[i]? = some "Title: No title available, Published: No publication date available") ∧
      (∀ r ∈ entries, ∃ t p, r = "Title: " ++ t ++ ", Published: " ++ p) :=
  fetch_pubmed_one_entry_per_id httpMissingId env0 "diabetes symptoms"
    ⟨200, .ok (Json.obj scenarioSearchFields)⟩ scenarioSearchFields
    [("idlist", Json.arr [Json.s "1", Json.s "2"])] ["1", "2"]
    ⟨200, .ok (Json.obj [("result", Json.obj
      [("1", Json.obj [("title", Json.s "A"), ("pubdate", Json.s "2020")])])])⟩
    [("result", Json.obj [("1", Json.obj [("title", Json.s "A"), ("pubdate", Json.s "2020")])])]
    [("1", Json.obj [("title", Json.s "A"), ("pubdate", Json.s "2020")])]
    rfl rfl rfl rfl rfl (by decide) rfl rfl rfl rfl
    (by
      intro id hid
      rcases List.mem_cons.mp hid with rfl | hid2
      · exact Or.inr ⟨[("title", Json.s "A"), ("pubdate", Json.s "2020")], rfl⟩
      rcases List.mem_cons.mp hid2 with rfl | hid3
      · exact Or.inl rfl
      exact absurd hid3 (List.not_mem_nil id))

end MedicalBackend

namespace MedicalBackend

/-- C6: For every successful adverse-event response in which the `results`
key is absent or the results list is empty, `fetch_drug_side_effects` returns
exactly "No information available for this drug."; for every response whose
first result has no reaction list (directly, or via an absent `patient`
object), it returns the fixed informational string "No side effects listed
for this drug.". -/
theorem fetch_drug_fixed_strings (env : Env) (http : Http) (drug : String)
    (resp : HttpResponse) (fields : List (String × Json))
    (h1 : http (FDA_API_URL drug) [] = .ok resp)
    (h2 : resp.status_code = 200)
    (h3 : resp.json = .ok (Json.obj fields)) :
    (List.lookup "results" fields = none ∨
      List.lookup "results" fields = some (Json.arr []) →
      fetch_drug_side_effects env http drug = "No information available for this drug.") ∧
    (∀ ffs pfs rest,
      List.lookup "results" fields = some (Json.arr (Json.obj ffs :: rest)) →
      (List.lookup "patient" ffs = some (Json.obj pfs) ∨
        (List.lookup "patient" ffs = none ∧ pfs = [])) →
      (List.lookup "reaction" pfs = none ∨
        List.lookup "reaction" pfs = some (Json.arr [])) →
      fetch_drug_side_effects env http drug = "No side effects listed for this drug.") := by
  constructor
  · intro h5
    refine fetch_drug_of_ok ?_
    rcases h5 with h5 | h5 <;>
      simp [fetchDrugTry, h1, h2, h3, Json.hasKey, h5, Json.index, Json.lenVal]
  · intro ffs pfs rest h5 hp hr
    refine fetch_drug_of_ok ?_
    rcases hp with hp | ⟨hp, rfl⟩ <;> rcases hr with hr | hr <;>
      simp [fetchDrugTry, h1, h2, h3, Json.hasKey, h5, Json.index, Json.lenVal,
        Json.first, Json.get, hp, hr, Json.truthy]

/-- An HTTP layer for the spec's aspirin scenario: a 200 adverse-event reply
with no `results` key. -/
def httpNoResults : Http := fun _ _ =>
  .ok ⟨200, .ok (Json.obj [("meta", Json.null)])⟩

/-- Witness for C6: drug name "aspirin" with an adverse-event reply lacking
`results` yields "No information available for this drug."; a reply whose
first result has no reaction list yields "No side effects listed for this
drug.". -/
theorem fetch_drug_fixed_strings_witness :
    fetch_drug_side_effects env0 httpNoResults "aspirin" =
      "No information available for this drug." ∧
    fetch_drug_side_effects env0
      (fun _ _ => .ok ⟨200, .ok (Json.obj
        [("results", Json.arr [Json.obj [("patient", Json.obj [])]])])⟩)
      "aspirin" = "No side effects listed for this drug." :=
  ⟨(fetch_drug_fixed_strings env0 httpNoResults "aspirin"
      ⟨200, .ok (Json.obj [("meta", Json.null)])⟩ [("meta", Json.null)]
      rfl rfl rfl).1 (Or.inl rfl),
   (fetch_drug_fixed_strings env0
      (fun _ _ => .ok ⟨200, .ok (Json.obj
        [("results", Json.arr [Json.obj [("patient", Json.obj [])]])])⟩)
      "aspirin"
      ⟨200, .ok (Json.obj [("results", Json.arr [Json.obj [("patient", Json.obj [])]])])⟩
      [("results", Json.arr [Json.obj [("patient", Json.obj [])]])]
      rfl rfl rfl).2
     [("patient", Json.obj [])] [] [] rfl (Or.inl rfl) (Or.inl rfl)⟩

/-- C7: For every non-empty reaction list in a successful adverse-event
response, `fetch_drug_side_effects` produces one description per reaction
entry, substituting "No description" for any entry lacking the
`reactionmeddrapt` field (never omitting the entry), and joins the
descriptions with ", ".  `d?` gives each entry's optional description
field. -/
theorem fetch_drug_joins_reaction_descriptions (env : Env) (http : Http) (drug : String)
    (resp : HttpResponse) (fields ffs pfs : List (String × Json))
    (rest : List Json) (rs : List Json) (d? : Json → Option String)
    (h1 : http (FDA_API_URL drug) [] = .ok resp)
    (h2 : resp.status_code = 200)
    (h3 : resp.json = .ok (Json.obj fields))
    (h4 : List.lookup "results" fields = some (Json.arr (Json.obj ffs :: rest)))
    (h5 : List.lookup "patient" ffs = some (Json.obj pfs))
    (h6 : List.lookup "reaction" pfs = some (Json.arr rs))
    (h7 : rs ≠ [])
    (h8 : ∀ r ∈ rs, ∃ afs, r = Json.obj afs ∧
      List.lookup "reactionmeddrapt" afs = Option.map Json.s (d? r)) :
    fetch_drug_side_effects env http drug =
      String.intercalate ", " (rs.map fun r => (d? r).getD "No description") := by
  have htruthy : (Json.arr rs).truthy = true := by
    cases rs with
    | nil => exact absurd rfl h7
    | cons a l => simp [Json.truthy]
  have hmap1 : mapExcept reactionDescription rs =
      .ok (rs.map fun r => Json.s ((d? r).getD "No description")) :=
    mapExcept_ok_of_forall fun r hrm => by
      obtain ⟨afs, rfl, hd⟩ := h8 r hrm
      cases hdr : d? (Json.obj afs) <;>
        simp [reactionDescription, Json.get, hd, hdr]
  have hmap2 : mapExcept Json.asStr
      (rs.map fun r => Json.s ((d? r).getD "No description")) =
      .ok (rs.map fun r => (d? r).getD "No description") := by
    have hcomp : (rs.map fun r => Json.s ((d? r).getD "No description")) =
        (rs.map fun r => (d? r).getD "No description").map Json.s := by
      rw [List.map_map]
      rfl
    rw [hcomp, mapExcept_asStr_of_map_s]
  refine fetch_drug_of_ok ?_
  simp only [fetchDrugTry, h1, h2, h3, Json.hasKey, h4, Json.index, Json.lenVal,
    Json.first, Json.get, h5, h6, Option.getD_some, Option.isSome_some, if_true,
    htruthy, Json.elems, hmap1, hmap2]
  simp

/-- The description field of a reaction entry of the witness scenario below. -/
def scenarioReactionDesc : Json → Option String
  | Json.obj [("reactionmeddrapt", Json.s t)] => some t
  | _ => none

/-- An HTTP layer whose adverse-event reply has two reactions, the second
lacking a description field. -/
def httpReactions : Http := fun _ _ =>
  .ok ⟨200, .ok (Json.obj [("results", Json.arr [Json.obj [("patient", Json.obj
    [("reaction", Json.arr [Json.obj [("reactionmeddrapt", Json.s "NAUSEA")],
      Json.obj [("reactionoutcome", Json.s "1")]])])]])])⟩

/-- Witness for C7: reactions `[{reactionmeddrapt: "NAUSEA"}, {}]` yield
"NAUSEA, No description". -/
theorem fetch_drug_joins_reaction_descriptions_witness :
    fetch_drug_side_effects env0 httpReactions "aspirin" = "NAUSEA, No description" := by
  have h := fetch_drug_joins_reaction_descriptions env0 httpReactions "aspirin"
    ⟨200, .ok (Json.obj [("results", Json.arr [Json.obj [("patient", Json.obj
      [("reaction", Json.arr [Json.obj [("reactionmeddrapt", Json.s "NAUSEA")],
        Json.obj [("reactionoutcome", Json.s "1")]])])]])])⟩
    [("results", Json.arr [Json.obj [("patient", Json.obj
      [("reaction", Json.arr [Json.obj [("reactionmeddrapt", Json.s "NAUSEA")],
        Json.obj [("reactionoutcome", Json.s "1")]])])]])]
    [("patient", Json.obj [("reaction", Json.arr
      [Json.obj [("reactionmeddrapt", Json.s "NAUSEA")],
        Json.obj [("reactionoutcome", Json.s "1")]])])]
    [("reaction", Json.arr [Json.obj [("reactionmeddrapt", Json.s "NAUSEA")],
      Json.obj [("reactionoutcome", Json.s "1")]])]
    []
    [Json.obj [("reactionmeddrapt", Json.s "NAUSEA")],
      Json.obj [("reactionoutcome", Json.s "1")]]
    scenarioReactionDesc
    rfl rfl rfl rfl rfl rfl (List.cons_ne_nil _ _)
    (by
      intro r hrm
      rcases List.mem_cons.mp hrm with rfl | hrm2
      · exact ⟨[("reactionmeddrapt", Json.s "NAUSEA")], rfl, rfl⟩
      rcases List.mem_cons.mp hrm2 with rfl | hrm3
      · exact ⟨[("reactionoutcome", Json.s "1")], rfl, rfl⟩
      exact absurd hrm3 (List.not_mem_nil r))
  rw [h]
  decide

end MedicalBackend

namespace MedicalBackend

/-- C8: For every invocation, the outbound literature search request (whose
params dict is `searchParams`, passed by `fetch_pubmed_articles` to the
esearch endpoint) carries a result cap `retmax` of exactly 5 and an
`api_key` parameter, and the outbound adverse-event request URL (built by
`fetch_drug_side_effects`) carries a result limit of exactly 1. -/
theorem outbound_request_limits (env : Env) (term drug : String) :
    ("retmax", PyVal.vn 5) ∈ searchParams env term ∧
    (∃ v, ("api_key", v) ∈ searchParams env term) ∧
    (∃ pre, FDA_API_URL drug = pre ++ "&limit=1") := by
  refine ⟨by simp [searchParams], ?_, ?_⟩
  · exact ⟨PyVal.ofOpt (PUBMED_API_KEY env), by simp [searchParams]⟩
  · exact ⟨"https://api.fda.gov/drug/event.json?search=patient.drug.medicinalproduct:" ++
      drug, rfl⟩

/-- C9: The drug-API key read from the environment (`FDA_API_KEY`) is never
attached to the adverse-event lookup: the result of
`fetch_drug_side_effects` is the same under any two environments (in
particular any two values of the configured drug-API key), the URL it builds
is a fixed constant around the drug name with no further parameter, and for
a concrete drug name that URL mentions no `api_key` parameter at all. -/
theorem fda_key_never_attached (drug : String) :
    (∀ e1 e2 : Env, ∀ http : Http,
      fetch_drug_side_effects e1 http drug = fetch_drug_side_effects e2 http drug) ∧
    FDA_API_URL drug =
      "https://api.fda.gov/drug/event.json?search=patient.drug.medicinalproduct:" ++
        drug ++ "&limit=1" ∧
    hasSub "api_key".toList (FDA_API_URL "aspirin").toList = false :=
  ⟨fun _ _ _ => rfl, rfl, by decide⟩

end MedicalBackend
